import Mathlib

/-!
Verification development for the session-scoped multi-agent conversation
routing and response service of the `Multi-Agent_with_the_LangGraph_Framework`
repository (example1_langgraph_swarm).

The repository's own code (service.py, api.py, agents.py) is shaped as thin
glue over an agent-orchestration framework; the Router / state-store parts of
the design live in the framework and are modelled here from the specification,
while the request shaping, validation, response extraction and the RAG-tool
initialization check are embedded directly from the source files.
-/

namespace MultiAgent

/-! ## Configuration constants, from agents.py -/

/-- Python's `str.strip()` (ASCII whitespace): drop leading and trailing
whitespace characters. Defined over the character list so that the kernel can
evaluate it on concrete strings. -/
def pyStrip (s : String) : String :=
  ⟨((s.data.dropWhile Char.isWhitespace).reverse.dropWhile Char.isWhitespace).reverse⟩

/-- From agents.py `create_swarm(..., default_active_agent="CurriculumVitaeAgent")`:
the configured default active agent name. -/
def defaultActiveAgent : String := "CurriculumVitaeAgent"

/-- From agents.py: the two configured agent (responder) role names. -/
def agentNames : List String := ["CurriculumVitaeAgent", "SearchAgent"]

/-! ## Data model

`Message`, `ChatResponse` come from service.py; `Turn`, `Session`, the store
and the Router are modelled from the spec (the swarm orchestration and the
checkpointer that realize them live in the imported frameworks). -/

/-- From service.py: the shape of a chat message as used by `process_question`
(`message.content`, `getattr(message, "name", "Unknown")`). The `name`
attribute may be absent, modelled as `Option`. -/
structure Message where
  role : String
  content : String
  name : Option String
deriving Repr, DecidableEq

/-- From service.py `ChatResponse`: structured response with the responding
agent's name, the response content and the thread (session) identifier. -/
structure ChatResponse where
  agent_name : String
  content : String
  thread_id : String
deriving Repr, DecidableEq

/-- Modelled from the spec: a Turn is one user question and the resulting
responder message, with the role that produced the response and the handoff
chain (ordered list of roles consulted) for diagnosability. -/
structure Turn where
  question : String
  role : String
  answer : String
  chain : List String
deriving Repr, DecidableEq

/-- Modelled from the spec: a Session is the ordered, append-only sequence of
Turns plus the currently active responder role. -/
structure Session where
  history : List Turn
  activeRole : String
deriving Repr, DecidableEq

/-- Modelled from the spec: the Session State Store is a keyed mapping from
session identifier to Session (realized by the framework's Postgres
checkpointer in the source). -/
def Store := List (String × Session)

/-- Modelled from the spec: `load(session_id)` returns the stored Session, or
creates a fresh one whose active role is the configured default
(`default_active_agent` in agents.py) when the identifier has never been seen. -/
def loadSession (st : Store) (sid : String) : Session :=
  match List.lookup sid st with
  | some s => s
  | none => { history := [], activeRole := defaultActiveAgent }

/-- Modelled from the spec: store the Session under the identifier (newest
binding shadows older ones). -/
def storeSet (st : Store) (sid : String) (s : Session) : Store :=
  (sid, s) :: st

/-! ## Router / Dispatcher, modelled from the spec (section 4.3)

The handoff orchestration is delegated to the imported swarm framework in the
source; the spec re-architects it as an explicit bounded state machine, which
is what is embedded here. -/

/-- Modelled from the spec: one responder invocation either answers with final
text or requests a handoff to a named target. Exactly one tag holds. -/
inductive DispatchResult where
  | answered (text : String)
  | handoffRequested (target : String)
deriving Repr, DecidableEq

/-- Modelled from the spec: a Responder exposes
`respond(session_history, new_message) -> DispatchResult`; the underlying
capability call may fail, which surfaces as an error. -/
def Responder := List Turn → String → Except String DispatchResult

/-- Modelled from the spec: the Router's terminal output for a turn: final
role, final text, the visited-role chain, and whether the force-stop policy
fired. -/
structure RouterOutcome where
  finalRole : String
  finalText : String
  chain : List String
  forced : Bool
deriving Repr, DecidableEq

/-- Modelled from the spec: the deterministic fallback text returned when the
Router force-stops a handoff loop. -/
def fallbackText : String := "unable to resolve"

/-- Modelled from the spec: the fixed configured bound on the handoff chain
length per turn (2, matching the two-responder topology). -/
def maxHandoffChain : Nat := 2

/-- Modelled from the spec: the Router loop. Invokes the active responder; on
`answered` it is done; on `handoffRequested` it force-stops deterministically
if the target was already visited or the chain bound is exhausted, otherwise
it switches to the target, marks it visited and loops. `fuel` is the number of
handoffs still allowed. -/
def routerGo (responders : String → Responder) (history : List Turn)
    (message : String) : Nat → String → List String → Except String RouterOutcome
  | 0, active, visited =>
    match responders active history message with
    | .error e => .error e
    | .ok (.answered text) =>
        .ok { finalRole := active, finalText := text, chain := visited, forced := false }
    | .ok (.handoffRequested _) =>
        .ok { finalRole := active, finalText := fallbackText,
              chain := visited, forced := true }
  | Nat.succ f, active, visited =>
    match responders active history message with
    | .error e => .error e
    | .ok (.answered text) =>
        .ok { finalRole := active, finalText := text, chain := visited, forced := false }
    | .ok (.handoffRequested target) =>
        if target ∈ visited then
          .ok { finalRole := active, finalText := fallbackText,
                chain := visited, forced := true }
        else
          routerGo responders history message f target (visited ++ [target])

/-- Modelled from the spec: run the Router for one turn, starting from the
session's active role with that role already on the visited chain, allowing at
most `maxHandoffChain - 1` handoffs (chain length at most `maxHandoffChain`). -/
def routeTurn (responders : String → Responder) (s : Session)
    (message : String) : Except String RouterOutcome :=
  routerGo responders s.history message (maxHandoffChain - 1) s.activeRole [s.activeRole]

/-! ## Conversation Service, modelled from the spec (section 4.4)

In the source the per-session persistence is delegated to the framework's
checkpointer inside `app.ainvoke`; the spec makes the turn lifecycle explicit:
validate input, load the session, run the Router, and on success commit
exactly one appended Turn plus the updated active role in a single step. -/

/-- Modelled from the spec: the error taxonomy surfaced by the Conversation
Service (InputError for empty question / session id, CapabilityError carrying
the original cause of a failed capability or store call). -/
inductive ServiceError where
  | inputError
  | capabilityError (cause : String)
deriving Repr, DecidableEq

/-- Modelled from the spec:
`process(session_id, question) -> { role, content, session_id }` over an
explicit store. Returns the (possibly updated) store together with either the
normalized response or a typed failure; the store is committed only on
success, in one step, so a turn is all-or-nothing. -/
def processTurn (responders : String → Responder) (st : Store)
    (sid question : String) : Store × Except ServiceError ChatResponse :=
  if sid = "" ∨ pyStrip question = "" then
    (st, .error .inputError)
  else
    match routeTurn responders (loadSession st sid) question with
    | .error e => (st, .error (.capabilityError e))
    | .ok outcome =>
        (storeSet st sid
          { history := (loadSession st sid).history ++
              [{ question := question, role := outcome.finalRole,
                 answer := outcome.finalText, chain := outcome.chain }],
            activeRole := outcome.finalRole },
         .ok { agent_name := outcome.finalRole,
               content := pyStrip outcome.finalText, thread_id := sid })

/-! ## service.py: process_question -/

/-- From service.py `process_question`: invoke the compiled workflow for the
thread (the invocation, which may fail, is the opaque `ainvoke` argument,
taking the thread id and the question), take the last message of the result,
and build a `ChatResponse` whose agent name is the message's `name` attribute
or `"Unknown"` when absent, whose content is the message content stripped of
leading and trailing whitespace, and whose thread id is the supplied one.
An exception from the workflow call (or an empty message list) propagates as
an error. -/
def process_question (ainvoke : String → String → Except String (List Message))
    (question threadId : String) : Except String ChatResponse :=
  match ainvoke threadId question with
  | .error e => .error e
  | .ok msgs =>
      match msgs.getLast? with
      | none => .error "IndexError: list index out of range"
      | some m =>
          .ok { agent_name := m.name.getD "Unknown",
                content := pyStrip m.content, thread_id := threadId }

/-! ## api.py: request validation and the /chat endpoint -/

/-- From api.py `ChatRequest`: pydantic field constraints — `question` has
`min_length=2` and `thread_id` has `min_length=1`, both on the raw string (no
trimming is performed). -/
def chatRequestValid (question threadId : String) : Bool :=
  2 ≤ question.length && 1 ≤ threadId.length

/-- From api.py: the possible outcomes of the `/chat` endpoint — a successful
`ChatResponse`, a request-validation rejection (FastAPI/pydantic 422), or an
`HTTPException` with a status code and detail text. -/
inductive ApiResult where
  | ok (r : ChatResponse)
  | validationError
  | httpError (status : Nat) (detail : String)
deriving Repr, DecidableEq

/-- From api.py `chat`: the request body is validated first (pydantic); then,
if the workflow is not initialized, a 503 is raised; otherwise
`process_question` is called and any exception it raises is re-raised as an
`HTTPException(500)` whose detail embeds the original cause. -/
def chatEndpoint (appReady : Bool)
    (ainvoke : String → String → Except String (List Message))
    (question threadId : String) : ApiResult :=
  if !(chatRequestValid question threadId) then .validationError
  else if !appReady then
    .httpError 503 "Service not ready - workflow not initialized"
  else
    match process_question ainvoke question threadId with
    | .ok r => .ok r
    | .error e => .httpError 500 ("Error processing question: " ++ e)

/-! ## agents.py: load_rag_tool initialization check -/

/-- From agents.py `load_rag_tool`: the outcome of the ChromaDB
collection-existence check — either the collection's document count, or the
check itself raised. -/
inductive CollectionCheck where
  | ok (count : Nat)
  | checkFailed (msg : String)
deriving Repr, DecidableEq

/-- From agents.py `load_rag_tool`: whether the function calls
`rag_tool.add(...)` (creating embeddings for the PDF). It returns the tool
without adding when the check succeeds with a positive document count, and
adds the data when the collection is empty or the check failed. -/
def load_rag_tool_adds : CollectionCheck → Bool
  | .ok count => decide (count = 0)
  | .checkFailed _ => true

/-- From agents.py `load_rag_tool`: the collection's document count after the
call, given the check outcome and the number of chunks the PDF embeds to (on a
successful check; a failed check hides the count, so only the successful-check
evolution is modelled). -/
def ragInitCount (count chunks : Nat) : Nat :=
  if count = 0 then count + chunks else count

/-! ## Observation helpers on Router results -/

/-- Whether an `Except` computation succeeded. -/
def exceptIsOk {ε α : Type} : Except ε α → Bool
  | .ok _ => true
  | .error _ => false

/-- The final fallback/answer text of a Router run (the error cause on
failure). -/
def routerFinalText : Except String RouterOutcome → String
  | .ok o => o.finalText
  | .error e => e

/-- Whether the Router's force-stop policy fired on this run. -/
def routerForced : Except String RouterOutcome → Bool
  | .ok o => o.forced
  | .error _ => false

/-- The length of the visited-role chain of a Router run. -/
def routerChainLength : Except String RouterOutcome → Nat
  | .ok o => o.chain.length
  | .error _ => 0

/-! ## Concrete test doubles used to instantiate the theorems -/

/-- Degenerate responder family: every responder always requests a handoff to
itself (the spec's degenerate test double). -/
def alwaysSelfHandoff : String → Responder :=
  fun a => fun _ _ => .ok (.handoffRequested a)

/-- Responder family in which every responder immediately answers. -/
def alwaysAnswer : String → Responder :=
  fun _ => fun _ _ => .ok (.answered "The candidate knows Python.")

/-- Workflow invocation double that succeeds with a single named message. -/
def okInvokeNamed : String → String → Except String (List Message) :=
  fun _ _ => .ok [{ role := "assistant", content := " All good. ",
                    name := some "CurriculumVitaeAgent" }]

/-- Workflow invocation double that succeeds with a single message carrying no
responder name. -/
def okInvokeUnnamed : String → String → Except String (List Message) :=
  fun _ _ => .ok [{ role := "assistant", content := "  plain text  ", name := none }]

/-- Workflow invocation double that fails with a capability error. -/
def failingInvoke : String → String → Except String (List Message) :=
  fun _ _ => .error "CapabilityError: search capability unreachable"

/-- The empty session store (no session identifier has been seen yet). -/
def emptyStore : Store := []

/-! ## Helper lemmas -/

/-- One-step unfolding of the Router loop with no handoff budget left. -/
lemma routerGo_zero_eq (responders : String → Responder) (h : List Turn)
    (m : String) (active : String) (visited : List String) :
    routerGo responders h m 0 active visited =
      match responders active h m with
      | .error e => .error e
      | .ok (.answered text) =>
          .ok { finalRole := active, finalText := text,
                chain := visited, forced := false }
      | .ok (.handoffRequested _) =>
          .ok { finalRole := active, finalText := fallbackText,
                chain := visited, forced := true } := rfl

/-- One-step unfolding of the Router loop with handoff budget remaining. -/
lemma routerGo_succ_eq (responders : String → Responder) (h : List Turn)
    (m : String) (f : Nat) (active : String) (visited : List String) :
    routerGo responders h m (f + 1) active visited =
      match responders active h m with
      | .error e => .error e
      | .ok (.answered text) =>
          .ok { finalRole := active, finalText := text,
                chain := visited, forced := false }
      | .ok (.handoffRequested target) =>
          if target ∈ visited then
            .ok { finalRole := active, finalText := fallbackText,
                  chain := visited, forced := true }
          else
            routerGo responders h m f target (visited ++ [target]) := rfl

/-- Router branch: the active responder errors. -/
lemma routerGo_error (responders : String → Responder) (h : List Turn)
    (m : String) (fuel : Nat) (active : String) (visited : List String)
    (e : String) (hresp : responders active h m = .error e) :
    routerGo responders h m fuel active visited = .error e := by
  cases fuel with
  | zero => rw [routerGo_zero_eq, hresp]
  | succ f => rw [routerGo_succ_eq, hresp]

/-- Router branch: the active responder answers. -/
lemma routerGo_answered (responders : String → Responder) (h : List Turn)
    (m : String) (fuel : Nat) (active : String) (visited : List String)
    (text : String) (hresp : responders active h m = .ok (.answered text)) :
    routerGo responders h m fuel active visited =
      .ok { finalRole := active, finalText := text,
            chain := visited, forced := false } := by
  cases fuel with
  | zero => rw [routerGo_zero_eq, hresp]
  | succ f => rw [routerGo_succ_eq, hresp]

/-- Router branch: a handoff with exhausted fuel force-stops. -/
lemma routerGo_handoff_exhausted (responders : String → Responder)
    (h : List Turn) (m : String) (active : String) (visited : List String)
    (t : String) (hresp : responders active h m = .ok (.handoffRequested t)) :
    routerGo responders h m 0 active visited =
      .ok { finalRole := active, finalText := fallbackText,
            chain := visited, forced := true } := by
  rw [routerGo_zero_eq, hresp]

/-- Router branch: a handoff to an already-visited target force-stops. -/
lemma routerGo_handoff_revisit (responders : String → Responder)
    (h : List Turn) (m : String) (f : Nat) (active : String)
    (visited : List String) (t : String)
    (hresp : responders active h m = .ok (.handoffRequested t))
    (hmem : t ∈ visited) :
    routerGo responders h m (f + 1) active visited =
      .ok { finalRole := active, finalText := fallbackText,
            chain := visited, forced := true } := by
  rw [routerGo_succ_eq, hresp]
  simp [hmem]

/-- Router branch: a handoff to an unvisited target switches responder. -/
lemma routerGo_handoff_step (responders : String → Responder) (h : List Turn)
    (m : String) (f : Nat) (active : String) (visited : List String)
    (t : String) (hresp : responders active h m = .ok (.handoffRequested t))
    (hmem : t ∉ visited) :
    routerGo responders h m (f + 1) active visited =
      routerGo responders h m f t (visited ++ [t]) := by
  rw [routerGo_succ_eq, hresp]
  simp [hmem]

/-- If every responder always requests a handoff, the Router loop always
terminates with the deterministic fallback, marks the run as forced, and the
visited chain grows by at most `fuel` roles. -/
lemma routerGo_all_handoff (responders : String → Responder) (h : List Turn)
    (m : String)
    (hall : ∀ a, ∃ t, responders a h m = Except.ok (.handoffRequested t)) :
    ∀ (fuel : Nat) (active : String) (visited : List String),
      ∃ o, routerGo responders h m fuel active visited = .ok o ∧
        o.finalText = fallbackText ∧ o.forced = true ∧
        o.chain.length ≤ visited.length + fuel := by
  intro fuel
  induction fuel with
  | zero =>
      intro active visited
      obtain ⟨t, ht⟩ := hall active
      exact ⟨{ finalRole := active, finalText := fallbackText,
               chain := visited, forced := true },
             routerGo_handoff_exhausted responders h m active visited t ht,
             rfl, rfl, Nat.le_add_right _ _⟩
  | succ f ih =>
      intro active visited
      obtain ⟨t, ht⟩ := hall active
      by_cases hmem : t ∈ visited
      · exact ⟨{ finalRole := active, finalText := fallbackText,
                 chain := visited, forced := true },
               routerGo_handoff_revisit responders h m f active visited t ht hmem,
               rfl, rfl, Nat.le_add_right _ _⟩
      · obtain ⟨o, ho, h1, h2, h3⟩ := ih t (visited ++ [t])
        refine ⟨o, ?_, h1, h2, ?_⟩
        · rw [routerGo_handoff_step responders h m f active visited t ht hmem]
          exact ho
        · simp [List.length_append] at h3
          omega

/-- The Router only appends to the visited chain, so the head of the chain of
a successful run is the head of the initial visited list. -/
lemma routerGo_chain_head (responders : String → Responder) (h : List Turn)
    (m : String) :
    ∀ (fuel : Nat) (active : String) (visited : List String) (x : String)
      (o : RouterOutcome),
      visited.head? = some x →
      routerGo responders h m fuel active visited = .ok o →
      o.chain.head? = some x := by
  intro fuel
  induction fuel with
  | zero =>
      intro active visited x o hv hr
      cases hresp : responders active h m with
      | error e => rw [routerGo_error responders h m 0 active visited e hresp] at hr; exact absurd hr (by simp)
      | ok d =>
          cases d with
          | answered text =>
              rw [routerGo_answered responders h m 0 active visited text hresp] at hr
              simp only [Except.ok.injEq] at hr
              rw [← hr]
              exact hv
          | handoffRequested t =>
              rw [routerGo_handoff_exhausted responders h m active visited t hresp] at hr
              simp only [Except.ok.injEq] at hr
              rw [← hr]
              exact hv
  | succ f ih =>
      intro active visited x o hv hr
      cases hresp : responders active h m with
      | error e => rw [routerGo_error responders h m (f + 1) active visited e hresp] at hr; exact absurd hr (by simp)
      | ok d =>
          cases d with
          | answered text =>
              rw [routerGo_answered responders h m (f + 1) active visited text hresp] at hr
              simp only [Except.ok.injEq] at hr
              rw [← hr]
              exact hv
          | handoffRequested t =>
              by_cases hmem : t ∈ visited
              · rw [routerGo_handoff_revisit responders h m f active visited t hresp hmem] at hr
                simp only [Except.ok.injEq] at hr
                rw [← hr]
                exact hv
              · rw [routerGo_handoff_step responders h m f active visited t hresp hmem] at hr
                cases visited with
                | nil => simp at hv
                | cons a as =>
                    have hax : a = x := by simpa using hv
                    subst hax
                    exact ih t ((a :: as) ++ [t]) a o (by simp) hr

/-- Loading the session just stored under the same identifier returns it. -/
lemma loadSession_storeSet_same (st : Store) (sid : String) (s : Session) :
    loadSession (storeSet st sid s) sid = s := by
  simp [loadSession, storeSet, List.lookup]

/-- Storing a session does not affect loads of other session identifiers. -/
lemma loadSession_storeSet_other (st : Store) (sid sid' : String) (s : Session)
    (h : sid' ≠ sid) :
    loadSession (storeSet st sid s) sid' = loadSession st sid' := by
  have hb : (sid' == sid) = false := by
    simp [h]
  simp [loadSession, storeSet, List.lookup, hb]

/-- Dissection of a successful `processTurn`: it came from a successful Router
run, the response is normalized from the Router outcome, and the new store
holds the session with exactly one appended Turn and the final role active. -/
lemma processTurn_ok_elim (responders : String → Responder) (st : Store)
    (sid question : String) (st' : Store) (r : ChatResponse)
    (hok : processTurn responders st sid question = (st', Except.ok r)) :
    ∃ outcome, routeTurn responders (loadSession st sid) question = .ok outcome ∧
      r = { agent_name := outcome.finalRole,
            content := pyStrip outcome.finalText, thread_id := sid } ∧
      st' = storeSet st sid
        { history := (loadSession st sid).history ++
            [{ question := question, role := outcome.finalRole,
               answer := outcome.finalText, chain := outcome.chain }],
          activeRole := outcome.finalRole } := by
  unfold processTurn at hok
  by_cases hval : (sid = "" ∨ pyStrip question = "")
  · simp [hval] at hok
  · simp only [if_neg hval] at hok
    cases hroute : routeTurn responders (loadSession st sid) question with
    | error e => rw [hroute] at hok; simp at hok
    | ok outcome =>
        rw [hroute] at hok
        simp only [Prod.mk.injEq, Except.ok.injEq] at hok
        exact ⟨outcome, rfl, hok.2.symm, hok.1.symm⟩

/-- A failing `processTurn` leaves the store untouched. -/
lemma processTurn_error_fst (responders : String → Responder) (st : Store)
    (sid question : String) (st' : Store) (e : ServiceError)
    (herr : processTurn responders st sid question = (st', Except.error e)) :
    st' = st := by
  unfold processTurn at herr
  by_cases hval : (sid = "" ∨ pyStrip question = "")
  · simp [hval] at herr
    exact herr.1.symm
  · simp only [if_neg hval] at herr
    cases hroute : routeTurn responders (loadSession st sid) question with
    | error e' =>
        rw [hroute] at herr
        simp at herr
        exact herr.1.symm
    | ok outcome =>
        rw [hroute] at herr
        simp at herr

/-! ## Claim theorems -/

/-- C1: For every turn in which the responders keep requesting handoffs
(including a degenerate responder that always hands off), the Router stops
with the handoff chain within the fixed configured bound and returns the
deterministic fallback result as a successful, forced outcome — it neither
crashes nor loops indefinitely. -/
theorem router_forces_stop_on_handoff_loop
    (responders : String → Responder) (s : Session) (message : String)
    (hall : ∀ a h m, ∃ t, responders a h m = Except.ok (.handoffRequested t)) :
    exceptIsOk (routeTurn responders s message) = true ∧
    routerFinalText (routeTurn responders s message) = fallbackText ∧
    routerForced (routeTurn responders s message) = true ∧
    routerChainLength (routeTurn responders s message) ≤ maxHandoffChain := by
  obtain ⟨o, ho, h1, h2, h3⟩ :=
    routerGo_all_handoff responders s.history message
      (fun a => hall a s.history message)
      (maxHandoffChain - 1) s.activeRole [s.activeRole]
  unfold routeTurn
  rw [ho]
  refine ⟨rfl, h1, h2, ?_⟩
  have h3' : o.chain.length ≤ 2 := by
    simpa [maxHandoffChain] using h3
  show o.chain.length ≤ maxHandoffChain
  simpa [maxHandoffChain] using h3'

/-- C1 witness: the degenerate always-self-handoff responder on a fresh
session force-stops with the fallback within the bound. -/
theorem router_forces_stop_on_handoff_loop_witness :
    exceptIsOk (routeTurn alwaysSelfHandoff
        { history := [], activeRole := defaultActiveAgent } "What is new?") = true ∧
    routerFinalText (routeTurn alwaysSelfHandoff
        { history := [], activeRole := defaultActiveAgent } "What is new?") = fallbackText ∧
    routerForced (routeTurn alwaysSelfHandoff
        { history := [], activeRole := defaultActiveAgent } "What is new?") = true ∧
    routerChainLength (routeTurn alwaysSelfHandoff
        { history := [], activeRole := defaultActiveAgent } "What is new?") ≤ maxHandoffChain :=
  router_forces_stop_on_handoff_loop alwaysSelfHandoff
    { history := [], activeRole := defaultActiveAgent } "What is new?"
    (fun a _ _ => ⟨a, rfl⟩)

/-- C2: a successful `processTurn` appends exactly one Turn to the session's
history and leaves every other session untouched; a failing `processTurn`
returns the store unchanged (all-or-nothing per turn). -/
theorem processTurn_appends_one_turn_on_success_none_on_failure
    (responders : String → Responder) (st : Store) (sid question : String) :
    (∀ st' r, processTurn responders st sid question = (st', Except.ok r) →
        (loadSession st' sid).history.length
          = (loadSession st sid).history.length + 1 ∧
        ∀ sid', sid' ≠ sid → loadSession st' sid' = loadSession st sid') ∧
    (∀ st' e, processTurn responders st sid question = (st', Except.error e) →
        st' = st) := by
  constructor
  · intro st' r hok
    obtain ⟨outcome, hroute, hr, hst⟩ :=
      processTurn_ok_elim responders st sid question st' r hok
    subst hst
    constructor
    · rw [loadSession_storeSet_same]
      simp
    · intro sid' hne
      exact loadSession_storeSet_other st sid sid' _ hne
  · intro st' e herr
    exact processTurn_error_fst responders st sid question st' e herr

/-- C2 witness: a concrete successful turn on a fresh store grows the
session's history from zero to one Turn. -/
theorem processTurn_appends_one_turn_witness :
    (loadSession (processTurn alwaysAnswer emptyStore "s1" "What skills?").1 "s1").history.length
      = (loadSession emptyStore "s1").history.length + 1 :=
  ((processTurn_appends_one_turn_on_success_none_on_failure
      alwaysAnswer emptyStore "s1" "What skills?").1
    (processTurn alwaysAnswer emptyStore "s1" "What skills?").1
    { agent_name := "CurriculumVitaeAgent",
      content := "The candidate knows Python.", thread_id := "s1" } rfl).1

/-- C4: loading a never-seen session identifier creates a fresh Session whose
active role is the configured default, the document-grounded responder
(CurriculumVitaeAgent), and any Router run on that fresh session consults
that responder first. -/
theorem fresh_session_defaults_to_curriculum_agent (st : Store) (sid : String)
    (hnew : List.lookup sid st = none) :
    loadSession st sid = { history := [], activeRole := defaultActiveAgent } ∧
    defaultActiveAgent = "CurriculumVitaeAgent" ∧
    ∀ (responders : String → Responder) (q : String) (o : RouterOutcome),
      routeTurn responders (loadSession st sid) q = .ok o →
      o.chain.head? = some "CurriculumVitaeAgent" := by
  have hload : loadSession st sid =
      { history := [], activeRole := defaultActiveAgent } := by
    simp [loadSession, hnew]
  refine ⟨hload, rfl, ?_⟩
  intro responders q o hr
  rw [hload] at hr
  unfold routeTurn at hr
  refine routerGo_chain_head responders _ q (maxHandoffChain - 1) _ _
    "CurriculumVitaeAgent" o ?_ hr
  rfl

/-- C4 witness: an unseen identifier on the empty store yields the default
session, and a concrete Router run on it consults CurriculumVitaeAgent
first. -/
theorem fresh_session_defaults_to_curriculum_agent_witness :
    (loadSession emptyStore "s-new" =
      { history := [], activeRole := defaultActiveAgent } ∧
     defaultActiveAgent = "CurriculumVitaeAgent") ∧
    ({ finalRole := "CurriculumVitaeAgent",
       finalText := "The candidate knows Python.",
       chain := ["CurriculumVitaeAgent"], forced := false } : RouterOutcome).chain.head?
      = some "CurriculumVitaeAgent" :=
  ⟨⟨(fresh_session_defaults_to_curriculum_agent emptyStore "s-new" rfl).1,
    (fresh_session_defaults_to_curriculum_agent emptyStore "s-new" rfl).2.1⟩,
   (fresh_session_defaults_to_curriculum_agent emptyStore "s-new" rfl).2.2
     alwaysAnswer "Tell me about the candidate"
     { finalRole := "CurriculumVitaeAgent",
       finalText := "The candidate knows Python.",
       chain := ["CurriculumVitaeAgent"], forced := false } rfl⟩

/-- C5: after a successful turn, the stored session's active role equals the
responder that produced the final answer, and any next Router run on that
session starts from (consults first) that responder rather than the
default. -/
theorem sticky_routing_after_turn (responders : String → Responder)
    (st : Store) (sid question : String) (st' : Store) (r : ChatResponse)
    (hok : processTurn responders st sid question = (st', Except.ok r)) :
    (loadSession st' sid).activeRole = r.agent_name ∧
    ∀ (responders2 : String → Responder) (q2 : String) (o2 : RouterOutcome),
      routeTurn responders2 (loadSession st' sid) q2 = .ok o2 →
      o2.chain.head? = some r.agent_name := by
  obtain ⟨outcome, hroute, hr, hst⟩ :=
    processTurn_ok_elim responders st sid question st' r hok
  subst hst
  subst hr
  constructor
  · rw [loadSession_storeSet_same]
  · intro responders2 q2 o2 hr2
    rw [loadSession_storeSet_same] at hr2
    unfold routeTurn at hr2
    refine routerGo_chain_head responders2 _ q2 (maxHandoffChain - 1) _ _ _ o2 ?_ hr2
    rfl

/-- C5 witness: after a concrete successful turn the stored active role is the
answering responder's name. -/
theorem sticky_routing_after_turn_witness :
    (loadSession (processTurn alwaysAnswer emptyStore "s1" "What skills?").1 "s1").activeRole
      = "CurriculumVitaeAgent" :=
  (sticky_routing_after_turn alwaysAnswer emptyStore "s1" "What skills?"
    (processTurn alwaysAnswer emptyStore "s1" "What skills?").1
    { agent_name := "CurriculumVitaeAgent",
      content := "The candidate knows Python.", thread_id := "s1" } rfl).1

/-- C3 counterexample: a question that is empty after trimming whitespace (two
spaces, raw length 2) passes the api.py request validation and the call
proceeds to a successful response — it is not rejected as an InputError. -/
theorem chat_validation_accepts_whitespace_question :
    chatRequestValid "  " "s1" = true ∧
    pyStrip "  " = "" ∧
    chatEndpoint true okInvokeNamed "  " "s1" =
      .ok { agent_name := "CurriculumVitaeAgent", content := "All good.",
            thread_id := "s1" } :=
  ⟨rfl, rfl, rfl⟩

/-- C3 amended: the endpoint rejects a request before invoking the workflow
exactly when the raw question length is below 2 or the session id is empty;
no whitespace trimming is involved in validation, so whitespace-only
questions of length at least 2 proceed. -/
theorem chatEndpoint_validates_raw_lengths (q tid : String)
    (ainvoke : String → String → Except String (List Message)) :
    chatEndpoint true ainvoke q tid = .validationError ↔
      (q.length < 2 ∨ tid.length = 0) := by
  constructor
  · intro hval
    by_contra hcon
    push_neg at hcon
    obtain ⟨h2, h1⟩ := hcon
    have hv : chatRequestValid q tid = true := by
      simp [chatRequestValid]
      omega
    unfold chatEndpoint at hval
    rw [hv] at hval
    cases hpq : process_question ainvoke q tid with
    | ok r => rw [hpq] at hval; simp at hval
    | error e => rw [hpq] at hval; simp at hval
  · intro hlen
    have hv : chatRequestValid q tid = false := by
      simp [chatRequestValid]
      omega
    unfold chatEndpoint
    rw [hv]
    simp

/-- C6: every successful `process_question` returns the structured
`ChatResponse` whose thread id equals the caller-supplied one, with the agent
name and content normalized from the workflow's last message. -/
theorem process_question_normalized_result
    (ainvoke : String → String → Except String (List Message))
    (question threadId : String) (r : ChatResponse)
    (hok : process_question ainvoke question threadId = .ok r) :
    r.thread_id = threadId ∧
    ∃ msgs m, ainvoke threadId question = .ok msgs ∧ msgs.getLast? = some m ∧
      r = { agent_name := m.name.getD "Unknown",
            content := pyStrip m.content, thread_id := threadId } := by
  cases hinv : ainvoke threadId question with
  | error e => simp [process_question, hinv] at hok
  | ok msgs =>
      cases hlast : msgs.getLast? with
      | none => simp [process_question, hinv, hlast] at hok
      | some m =>
          simp only [process_question, hinv, hlast, Except.ok.injEq] at hok
          subst hok
          exact ⟨rfl, msgs, m, rfl, hlast, rfl⟩

/-- C6 witness: a concrete successful call returns the supplied session id in
the response. -/
theorem process_question_normalized_result_witness :
    ({ agent_name := "CurriculumVitaeAgent", content := "All good.",
       thread_id := "s1" } : ChatResponse).thread_id = "s1" :=
  (process_question_normalized_result okInvokeNamed "Anything new?" "s1"
    { agent_name := "CurriculumVitaeAgent", content := "All good.",
      thread_id := "s1" } rfl).1

/-- C7: when `process_question` fails, the endpoint surfaces a single typed
HTTP 500 failure whose detail carries the original cause, and never converts
the failure into a successful answer. -/
theorem chat_surfaces_failure_with_cause
    (ainvoke : String → String → Except String (List Message))
    (question threadId e : String)
    (hvalid : chatRequestValid question threadId = true)
    (hfail : process_question ainvoke question threadId = .error e) :
    chatEndpoint true ainvoke question threadId =
      .httpError 500 ("Error processing question: " ++ e) ∧
    ∀ r, chatEndpoint true ainvoke question threadId ≠ .ok r := by
  have hend : chatEndpoint true ainvoke question threadId =
      .httpError 500 ("Error processing question: " ++ e) := by
    unfold chatEndpoint
    rw [hvalid, hfail]
    simp
  refine ⟨hend, fun r hr => ?_⟩
  rw [hend] at hr
  exact absurd hr (by simp)

/-- C7 witness: a concrete failing workflow call surfaces as a 500 carrying
the original capability-error cause. -/
theorem chat_surfaces_failure_with_cause_witness :
    chatEndpoint true failingInvoke "hello" "s1" =
      .httpError 500
        ("Error processing question: " ++ "CapabilityError: search capability unreachable") :=
  (chat_surfaces_failure_with_cause failingInvoke "hello" "s1"
    "CapabilityError: search capability unreachable" rfl rfl).1

/-- C8: `load_rag_tool` initialization is idempotent: it does not re-add the
PDF when the collection-existence check reports at least one document, it
adds exactly when the collection is empty or the check itself failed, and
after a first populating call a second call adds nothing. -/
theorem load_rag_tool_idempotent_init :
    (∀ n, 0 < n → load_rag_tool_adds (.ok n) = false) ∧
    load_rag_tool_adds (.ok 0) = true ∧
    (∀ msg, load_rag_tool_adds (.checkFailed msg) = true) ∧
    (∀ count chunks, 0 < count → ragInitCount count chunks = count) ∧
    (∀ chunks, 0 < chunks → load_rag_tool_adds (.ok (ragInitCount 0 chunks)) = false) := by
  refine ⟨?_, rfl, fun msg => rfl, ?_, ?_⟩
  · intro n hn
    simp [load_rag_tool_adds]
    omega
  · intro count chunks hc
    unfold ragInitCount
    rw [if_neg (by omega)]
  · intro chunks hc
    simp [load_rag_tool_adds, ragInitCount]
    omega

/-- C8 witness: a populated collection (7 documents) is not re-embedded, and
after a first call populates an empty collection with 3 chunks a second call
does not add again. -/
theorem load_rag_tool_idempotent_init_witness :
    load_rag_tool_adds (.ok 7) = false ∧
    load_rag_tool_adds (.ok (ragInitCount 0 3)) = false :=
  ⟨load_rag_tool_idempotent_init.1 7 (by decide),
   load_rag_tool_idempotent_init.2.2.2.2 3 (by decide)⟩

/-- C10: when the workflow's final message carries no responder name,
`process_question` still succeeds with agent name `"Unknown"` and with the
message content stripped of leading and trailing whitespace. -/
theorem process_question_unknown_agent_and_stripped_content
    (ainvoke : String → String → Except String (List Message))
    (question threadId : String) (msgs : List Message) (m : Message)
    (hinv : ainvoke threadId question = .ok msgs)
    (hlast : msgs.getLast? = some m)
    (hname : m.name = none) :
    process_question ainvoke question threadId =
      .ok { agent_name := "Unknown", content := pyStrip m.content,
            thread_id := threadId } := by
  simp [process_question, hinv, hlast, hname]

/-- C10 witness: a concrete unnamed final message yields agent name
`"Unknown"` and whitespace-stripped content. -/
theorem process_question_unknown_agent_witness :
    process_question okInvokeUnnamed "Anything?" "s1" =
      .ok { agent_name := "Unknown", content := "plain text",
            thread_id := "s1" } := by
  have h := process_question_unknown_agent_and_stripped_content okInvokeUnnamed
    "Anything?" "s1"
    [{ role := "assistant", content := "  plain text  ", name := none }]
    { role := "assistant", content := "  plain text  ", name := none } rfl rfl rfl
  have h2 : pyStrip "  plain text  " = "plain text" := by decide
  rw [h2] at h
  exact h

end MultiAgent
